import Mathlib

/-!
Verification of `reverse_tunnel.py` (reverse tunnel manager).

The Python source is shallowly embedded: pure helpers become Lean
functions, the filesystem side effects of the credential store become
explicit state passing over a `FileState`, and the `run_tunnel` retry
loop becomes a step function over a supervisor state.  Python machine
behaviour is modelled as follows: `str.split(":")`, `str.strip()` and
`int(...)` are reimplemented over `List Char` (ASCII whitespace and
digits); Python's unbounded `int` is Lean's `Int`; file permission
bits model `st_mode & 0o777`.
-/

/-- ASCII whitespace as stripped by Python `str.strip()` (space, tab,
newline, carriage return, vertical tab, form feed). -/
def isPySpace (c : Char) : Bool :=
  c = ' ' || c = '\t' || c = '\n' || c = '\r' || c = '\x0b' || c = '\x0c'

/-- Python `str.strip()` on a character list: drop whitespace from both ends. -/
def pyStrip (l : List Char) : List Char :=
  ((l.dropWhile isPySpace).reverse.dropWhile isPySpace).reverse

/-- Python `str.strip()` on a `String`. -/
def pyStripS (s : String) : String :=
  String.mk (pyStrip s.data)

/-- Digit-run scanner for Python `int()`: digits with single underscores
allowed only between digits (`prevSep` records that the previous character
was a separator or that we are at the start, where a digit is required). -/
def pyDigitsGo (acc : Nat) (prevSep : Bool) : List Char → Option Nat
  | [] => if prevSep then none else some acc
  | c :: rest =>
      if c.isDigit then pyDigitsGo (acc * 10 + (c.toNat - 48)) false rest
      else if c = '_' then
        if prevSep then none else pyDigitsGo acc true rest
      else none

/-- Parse a nonempty run of decimal digits (Python `int()` body). -/
def pyDigits (l : List Char) : Option Nat :=
  pyDigitsGo 0 true l

/-- Python `int(s)`: strip whitespace, optional sign, decimal digits. -/
def pyInt (l : List Char) : Option Int :=
  match pyStrip l with
  | '+' :: rest => (pyDigits rest).map (fun n => (n : Int))
  | '-' :: rest => (pyDigits rest).map (fun n => -(n : Int))
  | t => (pyDigits t).map (fun n => (n : Int))

/-- Python `int()` on a `String`. -/
def pyIntS (s : String) : Option Int :=
  pyInt s.data

/-- Python `raw.split(":")` on a character list: every colon separates,
empty fields are kept, the empty string splits to `[[]]`. -/
def splitColon : List Char → List (List Char)
  | [] => [[]]
  | c :: rest =>
      if c = ':' then [] :: splitColon rest
      else
        match splitColon rest with
        | [] => [[c]]
        | p :: ps => (c :: p) :: ps

/-- Python `raw.split(":")` on a `String`. -/
def splitColonS (s : String) : List String :=
  (splitColon s.data).map String.mk

/-- The `TunnelSpec` dataclass (`reverse_tunnel.py` lines 18-25).  Ports are
Python `int`s, hence `Int`. -/
structure TunnelSpec where
  remote_bind_host : String
  remote_bind_port : Int
  local_host : String
  local_port : Int
  label : String
deriving DecidableEq, Repr

/-- Shared tail of `parse_map_flag` (lines 225-238): convert the two port
fields with `int(...)`, raising `ValueError` if either fails, and build
the spec with its derived label. -/
def mkSpec (raw r_host r_port l_host l_port : String) : Except String TunnelSpec :=
  match pyIntS r_port, pyIntS l_port with
  | some rpi, some lpi =>
      Except.ok
        { remote_bind_host := r_host
          remote_bind_port := rpi
          local_host := l_host
          local_port := lpi
          label := r_host ++ ":" ++ toString rpi ++ "->" ++ l_host ++ ":" ++ toString lpi }
  | _, _ => Except.error ("Ports must be integers in --map: " ++ raw)

/-- Model of `parse_map_flag` (lines 209-238): split on colons; three fields use the
default bind host, four fields give it explicitly, any other count is a
`ValueError`. -/
def parse_map_flag (raw : String) (default_bind_host : String) : Except String TunnelSpec :=
  match splitColonS raw with
  | [r_port, l_host, l_port] => mkSpec raw default_bind_host r_port l_host l_port
  | [r_host, r_port, l_host, l_port] => mkSpec raw r_host r_port l_host l_port
  | _ => Except.error ("Invalid --map value: " ++ raw)

/-- Whether a parse attempt raised (`ValueError` in the source). -/
def parseRejected (r : Except String TunnelSpec) : Bool :=
  match r with
  | Except.error _ => true
  | Except.ok _ => false

/-- State of the credential file: `content` is `none` when the file is
absent; `mode` models the permission bits `st_mode & 0o777`. -/
structure FileState where
  content : Option String
  mode : Nat
deriving DecidableEq, Repr

/-- Model of `read_password` (lines 29-33): trimmed contents, or `None` when the
file does not exist. -/
def read_password (fs : FileState) : Option String :=
  match fs.content with
  | none => none
  | some c => some (pyStripS c)

/-- Model of `write_password` (lines 35-41): unlink any existing file, create the
file with mode `0o600`, write the password followed by a newline. -/
def write_password (_fs : FileState) (password : String) : FileState :=
  { content := some (password ++ "\n"), mode := 0o600 }

/-- Result of `secure_password`: the returned secret, whether the
interactive prompt ran, and the resulting file state. -/
structure SPResult where
  pw : String
  prompted : Bool
  fs : FileState
deriving DecidableEq, Repr

/-- Model of `secure_password` (lines 46-60): `if not pw` (so both a missing file
and file contents that strip to the empty string) prompts and persists;
otherwise the stored trimmed password is returned and the permission bits
are tightened to `0o600` when they differ. `prompt_input` is the string
the operator would type at the `getpass` prompt. -/
def secure_password (fs : FileState) (prompt_input : String) : SPResult :=
  match read_password fs with
  | none =>
      { pw := prompt_input, prompted := true, fs := write_password fs prompt_input }
  | some pw =>
      if pw = "" then
        { pw := prompt_input, prompted := true, fs := write_password fs prompt_input }
      else
        { pw := pw
          prompted := false
          fs := if fs.mode ≠ 0o600 then { fs with mode := 0o600 } else fs }

/-- One byte-stream endpoint of a bridge (a paramiko channel or a local
TCP socket): the chunks written to it so far, whether its write side has
been shut down (`shutdown(SHUT_WR)`), and whether it has been closed. -/
structure Endpoint where
  received : List (List Nat)
  wrShutdown : Bool
  closed : Bool
deriving DecidableEq, Repr

/-- Chunks a copy direction actually delivers: `srcData` is the sequence
of chunks `recv` yields, an empty chunk marking end-of-stream; `failAfter`
models an I/O error after that many chunks (the `except Exception: pass`
in `pipe`). -/
def delivered (srcData : List (List Nat)) (failAfter : Option Nat) : List (List Nat) :=
  match failAfter with
  | none => srcData.takeWhile (fun d => d ≠ [])
  | some k => (srcData.takeWhile (fun d => d ≠ [])).take k

/-- Model of `pipe` (lines 62-76): copy chunks from the source to `dst` until the
empty chunk (EOF) or an error, then in the `finally` block shut down the
write side of `dst`.  `dst` is never closed here — only half-closed. -/
def pipe (srcData : List (List Nat)) (failAfter : Option Nat) (dst : Endpoint) : Endpoint :=
  { dst with
      received := dst.received ++ delivered srcData failAfter
      wrShutdown := true }

/-- Outcome of `forward_channel`: the final states of the channel and the
local socket, and whether the local TCP connect failed. -/
structure BridgeResult where
  channel : Endpoint
  sock : Endpoint
  localConnectError : Bool
deriving DecidableEq, Repr

/-- Model of `forward_channel` (lines 78-105): on local connect failure close only
the channel and return reporting the error; on success run the two copy
directions (`chanData` flows channel→socket, `sockData` flows
socket→channel), join them, then close the socket and the channel. -/
def forward_channel (connectOk : Bool) (chanData sockData : List (List Nat))
    (chanFail sockFail : Option Nat) (channel sock : Endpoint) : BridgeResult :=
  if connectOk = false then
    { channel := { channel with closed := true }, sock := sock, localConnectError := true }
  else
    let sock2 := pipe chanData chanFail sock
    let channel2 := pipe sockData sockFail channel
    { channel := { channel2 with closed := true }
      sock := { sock2 with closed := true }
      localConnectError := false }

/-- Phase of one tunnel's supervisor loop in `run_tunnel`: `Connecting`
covers the credential lookup, `client.connect` and the remote-bind
request; `Serving` is the inner `transport.accept` loop. -/
inductive Phase where
  | Connecting : Phase
  | Serving : Phase
deriving DecidableEq, Repr

/-- Backoff configuration of `run_tunnel` (`backoff_start`, `backoff_max`
command-line flags). -/
structure TunnelConfig where
  backoff_start : Nat
  backoff_max : Nat
deriving DecidableEq, Repr

/-- Supervisor state of one `run_tunnel` loop: current phase, the
`backoff` variable, and the credential file contents (`none` = absent). -/
structure SupState where
  phase : Phase
  backoff : Nat
  credFile : Option String
deriving DecidableEq, Repr

/-- Externally determined events driving one iteration of `run_tunnel`'s
loop. -/
inductive TunnelEvent where
  | connectOk : TunnelEvent
  | authFail : TunnelEvent
  | otherFail : TunnelEvent
  | sessionDrop : TunnelEvent
  | channelAccepted : Bool → TunnelEvent
  | acceptTimeout : TunnelEvent
deriving DecidableEq, Repr

/-- One step of `run_tunnel`'s loop (lines 130-205).  The second component
is the seconds slept by the step.
* `connectOk` (connect and `request_port_forward` succeed, line 161):
  enter `Serving`, `backoff = backoff_start`.
* `authFail` (lines 175-184): unlink the credential file, `time.sleep(1)`,
  `continue` — the backoff block at lines 202-205 is skipped.
* `otherFail` / `sessionDrop` (lines 192-205): fall through to the
  reconnect block, `time.sleep(backoff)`, then
  `backoff = min(backoff * 2, backoff_max)`.
* `channelAccepted` (lines 164-173): spawn a daemon `forward_channel`
  thread and keep accepting; `acceptTimeout` (line 166-168): `continue`. -/
def run_tunnel_step (cfg : TunnelConfig) (st : SupState) :
    TunnelEvent → SupState × Nat
  | TunnelEvent.connectOk =>
      if st.phase = Phase.Connecting then
        ({ st with phase := Phase.Serving, backoff := cfg.backoff_start }, 0)
      else (st, 0)
  | TunnelEvent.authFail =>
      if st.phase = Phase.Connecting then
        ({ st with credFile := none }, 1)
      else (st, 0)
  | TunnelEvent.otherFail =>
      if st.phase = Phase.Connecting then
        ({ st with backoff := min (st.backoff * 2) cfg.backoff_max }, st.backoff)
      else (st, 0)
  | TunnelEvent.sessionDrop =>
      if st.phase = Phase.Serving then
        ({ st with phase := Phase.Connecting
                   backoff := min (st.backoff * 2) cfg.backoff_max }, st.backoff)
      else (st, 0)
  | TunnelEvent.channelAccepted _ => (st, 0)
  | TunnelEvent.acceptTimeout => (st, 0)

/-- The failure event available in the current phase: an abnormal session
termination while `Serving`, a failed connection attempt while
`Connecting`.  Authentication failures are handled separately. -/
def failEvent (st : SupState) : TunnelEvent :=
  if st.phase = Phase.Serving then TunnelEvent.sessionDrop else TunnelEvent.otherFail

/-- Iterate `k` consecutive non-authentication failures with no intervening
success. -/
def runFailures (cfg : TunnelConfig) : Nat → SupState → SupState
  | 0, st => st
  | k + 1, st => runFailures cfg k (run_tunnel_step cfg st (failEvent st)).1

/-- Run a list of events through the supervisor loop. -/
def runEvents (cfg : TunnelConfig) : List TunnelEvent → SupState → SupState
  | [], st => st
  | e :: evs, st => runEvents cfg evs (run_tunnel_step cfg st e).1

theorem min_mul_cap (a m c : Nat) (hc : 0 < c) : min (min a m * c) m = min (a * c) m := by
  rcases Nat.le_total a m with h | h
  · rw [Nat.min_eq_left h]
  · rw [Nat.min_eq_right h, Nat.min_eq_right (Nat.le_mul_of_pos_right m hc),
      Nat.min_eq_right (Nat.le_trans h (Nat.le_mul_of_pos_right a hc))]

theorem failEvent_backoff (cfg : TunnelConfig) (st : SupState) :
    (run_tunnel_step cfg st (failEvent st)).1.backoff = min (st.backoff * 2) cfg.backoff_max := by
  cases hp : st.phase <;> simp [failEvent, run_tunnel_step, hp]

theorem runFailures_backoff (cfg : TunnelConfig) :
    ∀ (k : Nat) (st : SupState), st.backoff ≤ cfg.backoff_max →
      (runFailures cfg k st).backoff = min (st.backoff * 2 ^ k) cfg.backoff_max := by
  intro k
  induction k with
  | zero =>
      intro st h
      simp [runFailures, Nat.min_eq_left h]
  | succ k ih =>
      intro st h
      have hstep := failEvent_backoff cfg st
      have hle : (run_tunnel_step cfg st (failEvent st)).1.backoff ≤ cfg.backoff_max := by
        rw [hstep]; exact Nat.min_le_right _ _
      rw [runFailures, ih _ hle, hstep, min_mul_cap _ _ _ (Nat.pos_pow_of_pos k (by decide))]
      congr 1
      rw [Nat.pow_succ]
      ring

/-- C1: for a single tunnel's retry loop, after any successful transition
into `Serving` (connect plus remote-bind succeed, line 161) `backoff`
is reset to `backoff_start`, and after `k` consecutive non-authentication
failures (failed connection attempts or abnormal session terminations,
with no intervening success) `backoff` equals
`min(backoff_start * 2^k, backoff_max)`. -/
theorem backoff_doubling (cfg : TunnelConfig) (st : SupState) (k : Nat)
    (hbm : cfg.backoff_start ≤ cfg.backoff_max) (hc : st.phase = Phase.Connecting) :
    (run_tunnel_step cfg st TunnelEvent.connectOk).1.backoff = cfg.backoff_start ∧
    (runFailures cfg k (run_tunnel_step cfg st TunnelEvent.connectOk).1).backoff =
      min (cfg.backoff_start * 2 ^ k) cfg.backoff_max := by
  have hstep : (run_tunnel_step cfg st TunnelEvent.connectOk).1 =
      { st with phase := Phase.Serving, backoff := cfg.backoff_start } := by
    simp [run_tunnel_step, hc]
  refine ⟨by rw [hstep], ?_⟩
  rw [hstep]
  exact runFailures_backoff cfg k _ hbm

/-- Concrete instance of `backoff_doubling`: start 2, cap 60, six
consecutive failures saturate at the cap. -/
theorem backoff_doubling_witness :
    (run_tunnel_step ⟨2, 60⟩ ⟨Phase.Connecting, 7, none⟩ TunnelEvent.connectOk).1.backoff = 2 ∧
    (runFailures ⟨2, 60⟩ 6
        (run_tunnel_step ⟨2, 60⟩ ⟨Phase.Connecting, 7, none⟩ TunnelEvent.connectOk).1).backoff =
      min (2 * 2 ^ 6) 60 :=
  backoff_doubling ⟨2, 60⟩ ⟨Phase.Connecting, 7, none⟩ 6 (by decide) rfl

theorem step_congr (cfg : TunnelConfig) (st1 st2 : SupState) (e : TunnelEvent)
    (hp : st1.phase = st2.phase) (hb : st1.backoff = st2.backoff) :
    (run_tunnel_step cfg st1 e).1.phase = (run_tunnel_step cfg st2 e).1.phase ∧
    (run_tunnel_step cfg st1 e).1.backoff = (run_tunnel_step cfg st2 e).1.backoff := by
  cases e <;> simp only [run_tunnel_step, hp, hb] <;> (try split) <;> simp [hp, hb]

theorem runEvents_congr (cfg : TunnelConfig) :
    ∀ (evs : List TunnelEvent) (st1 st2 : SupState),
      st1.phase = st2.phase → st1.backoff = st2.backoff →
      (runEvents cfg evs st1).backoff = (runEvents cfg evs st2).backoff := by
  intro evs
  induction evs with
  | nil => intro st1 st2 _ hb; simpa [runEvents] using hb
  | cons e evs ih =>
      intro st1 st2 hp hb
      obtain ⟨hp', hb'⟩ := step_congr cfg st1 st2 e hp hb
      simpa [runEvents] using ih _ _ hp' hb'

/-- C10: the authentication-failure branch (lines 175-184) leaves
`backoff` (and the phase) unchanged — it skips both the reset on line 161
and the sleep-and-double block on lines 202-205 — so any later events see
exactly the backoff value held before the authentication failure. -/
theorem auth_failure_backoff_frame (cfg : TunnelConfig) (st : SupState)
    (evs : List TunnelEvent) :
    (run_tunnel_step cfg st TunnelEvent.authFail).1.backoff = st.backoff ∧
    (run_tunnel_step cfg st TunnelEvent.authFail).1.phase = st.phase ∧
    (runEvents cfg evs (run_tunnel_step cfg st TunnelEvent.authFail).1).backoff =
      (runEvents cfg evs st).backoff := by
  have hb : (run_tunnel_step cfg st TunnelEvent.authFail).1.backoff = st.backoff := by
    simp only [run_tunnel_step]; split <;> rfl
  have hp : (run_tunnel_step cfg st TunnelEvent.authFail).1.phase = st.phase := by
    simp only [run_tunnel_step]; split <;> rfl
  exact ⟨hb, hp, runEvents_congr cfg evs _ _ hp hb⟩

/-- C3 counterexample: the authentication-failure branch does not retry
immediately — line 183 is `time.sleep(1)`, so a one-second delay is
inserted between the failed attempt and the retry. -/
theorem auth_failure_sleep_counterexample :
    (run_tunnel_step ⟨2, 60⟩ ⟨Phase.Connecting, 8, some "stale\n"⟩ TunnelEvent.authFail).2 = 1 ∧
    ¬ (run_tunnel_step ⟨2, 60⟩ ⟨Phase.Connecting, 8, some "stale\n"⟩ TunnelEvent.authFail).2 = 0 := by
  exact ⟨rfl, by decide⟩

/-- C3 (amended): on an authentication failure during a connect attempt
the stored credential file is deleted and the supervisor returns to
`Connecting` after a fixed one-second pause (independent of the backoff
value); the backoff sleep-and-double block is skipped, so no backoff
delay is inserted, and because the file is gone the very next attempt
prompts afresh and returns the newly entered secret. -/
theorem auth_failure_reprompts (cfg : TunnelConfig) (st : SupState)
    (hc : st.phase = Phase.Connecting) (m : Nat) (typed : String) :
    (run_tunnel_step cfg st TunnelEvent.authFail).1.credFile = none ∧
    (run_tunnel_step cfg st TunnelEvent.authFail).1.phase = Phase.Connecting ∧
    (run_tunnel_step cfg st TunnelEvent.authFail).2 = 1 ∧
    (run_tunnel_step cfg st TunnelEvent.authFail).1.backoff = st.backoff ∧
    (secure_password ⟨none, m⟩ typed).prompted = true ∧
    (secure_password ⟨none, m⟩ typed).pw = typed := by
  refine ⟨?_, ?_, ?_, ?_, rfl, rfl⟩ <;> simp [run_tunnel_step, hc]

/-- Concrete instance of `auth_failure_reprompts`. -/
theorem auth_failure_reprompts_witness :
    (run_tunnel_step ⟨2, 60⟩ ⟨Phase.Connecting, 16, some "stale\n"⟩ TunnelEvent.authFail).1.credFile = none ∧
    (run_tunnel_step ⟨2, 60⟩ ⟨Phase.Connecting, 16, some "stale\n"⟩ TunnelEvent.authFail).1.phase = Phase.Connecting ∧
    (run_tunnel_step ⟨2, 60⟩ ⟨Phase.Connecting, 16, some "stale\n"⟩ TunnelEvent.authFail).2 = 1 ∧
    (run_tunnel_step ⟨2, 60⟩ ⟨Phase.Connecting, 16, some "stale\n"⟩ TunnelEvent.authFail).1.backoff = 16 ∧
    (secure_password ⟨none, 0⟩ "corrected").prompted = true ∧
    (secure_password ⟨none, 0⟩ "corrected").pw = "corrected" :=
  auth_failure_reprompts ⟨2, 60⟩ ⟨Phase.Connecting, 16, some "stale\n"⟩ rfl 0 "corrected"

/-- C4 counterexample: a credential file that exists and is readable but
whose contents strip to the empty string (here a lone newline) still
triggers the interactive prompt — `if not pw` on line 48 is also taken
for the empty string — and the prompted value, not the file's trimmed
contents, is returned. -/
theorem secure_password_counterexample :
    (FileState.mk (some "\n") 0o600).content.isSome = true ∧
    (secure_password ⟨some "\n", 0o600⟩ "typed").prompted = true ∧
    (secure_password ⟨some "\n", 0o600⟩ "typed").pw = "typed" := by
  refine ⟨rfl, ?_, ?_⟩ <;> rfl

/-- C4 (amended): if the credential file exists, is readable and its
trimmed contents are non-empty, `secure_password` returns those trimmed
contents without prompting (tightening the mode to `0o600` if needed);
otherwise — file absent, or contents trimming to the empty string — it
prompts, persists the entered secret with owner-only permissions and a
trailing newline, and returns it. -/
theorem secure_password_spec (fs : FileState) (typed : String) :
    (∀ c : String, fs.content = some c → pyStripS c ≠ "" →
        secure_password fs typed =
          ⟨pyStripS c, false, { fs with mode := 0o600 }⟩) ∧
    ((fs.content = none ∨ ∃ c, fs.content = some c ∧ pyStripS c = "") →
        secure_password fs typed =
          ⟨typed, true, ⟨some (typed ++ "\n"), 0o600⟩⟩) := by
  constructor
  · intro c hc hne
    cases fs with
    | mk content mode =>
        simp only at hc
        subst hc
        have hread : read_password ⟨some c, mode⟩ = some (pyStripS c) := rfl
        simp only [secure_password, hread]
        rw [if_neg hne]
        by_cases hmode : mode = 0o600
        · simp [hmode]
        · simp [hmode]
  · intro hcase
    rcases hcase with hnone | ⟨c, hc, hstrip⟩
    · cases fs with
      | mk content mode =>
          simp only at hnone
          subst hnone
          rfl
    · cases fs with
      | mk content mode =>
          simp only at hc
          subst hc
          simp [secure_password, read_password, write_password, hstrip]

/-- Concrete instances of `secure_password_spec`: a stored password is
returned trimmed without prompting, and a missing file prompts and
persists. -/
theorem secure_password_spec_witness :
    secure_password ⟨some " hunter2\n", 0o644⟩ "typed" =
      ⟨pyStripS " hunter2\n", false, ⟨some " hunter2\n", 0o600⟩⟩ ∧
    secure_password ⟨none, 0⟩ "typed" = ⟨"typed", true, ⟨some ("typed" ++ "\n"), 0o600⟩⟩ :=
  ⟨(secure_password_spec ⟨some " hunter2\n", 0o644⟩ "typed").1 " hunter2\n" rfl (by decide),
   (secure_password_spec ⟨none, 0⟩ "typed").2 (Or.inl rfl)⟩

/-- C5 counterexample: a pre-existing credential file with mode `0o644`
(looser than `0o600`) whose contents are whitespace-only is not merely
tightened in place — `secure_password` takes the prompt branch and
rewrites the file, changing its content. -/
theorem credential_mode_counterexample :
    (420 : Nat) ≠ 0o600 ∧
    (secure_password ⟨some " ", 420⟩ "newpw").fs.content ≠ some " " := by
  exact ⟨by decide, by decide⟩

/-- C5 (amended): every credential file created by `write_password` has
mode `0o600`; and a read through `secure_password` of a pre-existing file
with non-empty trimmed contents whose permission bits differ from `0o600`
(in particular any looser mode) resets the mode to `0o600` in place
without changing the file's content. -/
theorem credential_mode_tightened (fs : FileState) (typed c : String)
    (hc : fs.content = some c) (hne : pyStripS c ≠ "") :
    (∀ (fs2 : FileState) (pw : String), (write_password fs2 pw).mode = 0o600) ∧
    (secure_password fs typed).fs.content = some c ∧
    (secure_password fs typed).fs.mode = 0o600 := by
  have h := (secure_password_spec fs typed).1 c hc hne
  refine ⟨fun _ _ => rfl, ?_, ?_⟩ <;> rw [h]
  exact hc

/-- Concrete instance of `credential_mode_tightened`: a file with mode
`0o644` is tightened to `0o600`, its content untouched. -/
theorem credential_mode_tightened_witness :
    (∀ (fs2 : FileState) (pw : String), (write_password fs2 pw).mode = 0o600) ∧
    (secure_password ⟨some "hunter2\n", 420⟩ "typed").fs.content = some "hunter2\n" ∧
    (secure_password ⟨some "hunter2\n", 420⟩ "typed").fs.mode = 0o600 :=
  credential_mode_tightened ⟨some "hunter2\n", 420⟩ "typed" "hunter2\n" rfl (by decide)

theorem pyStrip_eq_self_parts (l : List Char) (h : pyStrip l = l) :
    l.dropWhile isPySpace = l ∧ l.reverse.dropWhile isPySpace = l.reverse := by
  have hlen : (pyStrip l).length = l.length := by rw [h]
  have e1 : (pyStrip l).length =
      ((l.dropWhile isPySpace).reverse.dropWhile isPySpace).length := by
    simp [pyStrip]
  have h1 : ((l.dropWhile isPySpace).reverse.dropWhile isPySpace).length ≤
      (l.dropWhile isPySpace).reverse.length :=
    (List.dropWhile_sublist _).length_le
  have h2 : (l.dropWhile isPySpace).length ≤ l.length :=
    (List.dropWhile_sublist _).length_le
  have h3 : (l.dropWhile isPySpace).reverse.length = (l.dropWhile isPySpace).length := by
    simp
  have hAlen : (l.dropWhile isPySpace).length = l.length := by omega
  have hA : l.dropWhile isPySpace = l :=
    (List.dropWhile_sublist _).eq_of_length hAlen
  have hBlen : ((l.dropWhile isPySpace).reverse.dropWhile isPySpace).length =
      (l.dropWhile isPySpace).reverse.length := by omega
  have hB : (l.dropWhile isPySpace).reverse.dropWhile isPySpace =
      (l.dropWhile isPySpace).reverse :=
    (List.dropWhile_sublist _).eq_of_length hBlen
  rw [hA] at hB
  exact ⟨hA, hB⟩

theorem pyStrip_append_newline (l : List Char) (h0 : l ≠ []) (h : pyStrip l = l) :
    pyStrip (l ++ ['\n']) = l := by
  obtain ⟨hfront, hback⟩ := pyStrip_eq_self_parts l h
  rcases hl : l with _ | ⟨c, t⟩
  · exact absurd hl h0
  subst hl
  have hc : ¬ (isPySpace c = true) := by
    intro hcc
    rw [List.dropWhile_cons_of_pos hcc] at hfront
    have hle : (t.dropWhile isPySpace).length ≤ t.length :=
      (List.dropWhile_sublist _).length_le
    have := congrArg List.length hfront
    simp at this
    omega
  have hfront2 : (c :: t ++ ['\n']).dropWhile isPySpace = c :: t ++ ['\n'] := by
    rw [List.cons_append, List.dropWhile_cons_of_neg hc]
  have hrev : (c :: t ++ ['\n']).reverse = '\n' :: (c :: t).reverse := by
    simp
  have hnl : isPySpace '\n' = true := by decide
  calc pyStrip (c :: t ++ ['\n'])
      = (((c :: t ++ ['\n']).dropWhile isPySpace).reverse.dropWhile isPySpace).reverse := rfl
    _ = (((c :: t).reverse.dropWhile isPySpace)).reverse := by
        rw [hfront2, hrev, List.dropWhile_cons_of_pos hnl]
    _ = (c :: t).reverse.reverse := by rw [hback]
    _ = c :: t := by simp

/-- C9: writing a secret with `write_password` and reading it back with
`read_password` returns exactly the original secret whenever the secret
is non-empty and carries no surrounding whitespace, even though the
on-disk representation has a trailing newline. -/
theorem password_roundtrip (s : String) (fs : FileState)
    (h0 : s ≠ "") (h : pyStripS s = s) :
    read_password (write_password fs s) = some s := by
  have hdata : pyStrip s.data = s.data := congrArg String.data h
  have hne : s.data ≠ [] := by
    intro hd
    apply h0
    cases s with
    | mk d => simp only at hd; rw [hd]
  have key : pyStrip (s.data ++ ['\n']) = s.data :=
    pyStrip_append_newline s.data hne hdata
  show some (pyStripS (s ++ "\n")) = some s
  congr 1
  cases s with
  | mk d =>
      show String.mk (pyStrip (d ++ ['\n'])) = String.mk d
      rw [show pyStrip (d ++ ['\n']) = d from key]

/-- Concrete instance of `password_roundtrip`. -/
theorem password_roundtrip_witness :
    read_password (write_password ⟨none, 0⟩ "hunter2") = some "hunter2" :=
  password_roundtrip "hunter2" ⟨none, 0⟩ (by decide) (by decide)

theorem mkSpec_ok (raw rh rp lh lp : String) (p q : Int)
    (hp : pyIntS rp = some p) (hq : pyIntS lp = some q) :
    mkSpec raw rh rp lh lp =
      Except.ok ⟨rh, p, lh, q, rh ++ ":" ++ toString p ++ "->" ++ lh ++ ":" ++ toString q⟩ := by
  simp [mkSpec, hp, hq]

theorem mkSpec_rejected (raw rh rp lh lp : String)
    (h : pyIntS rp = none ∨ pyIntS lp = none) :
    parseRejected (mkSpec raw rh rp lh lp) = true := by
  rcases h2 : pyIntS rp with _ | a <;> rcases h3 : pyIntS lp with _ | b <;>
    simp_all [mkSpec, parseRejected]

/-- C2: a `--map` value with exactly three colon-separated fields parses
to a `TunnelSpec` taking the configured default bind host and the three
fields as remote port, local host and local port; four fields give all
four explicitly; any other field count, or a port field that `int()`
rejects, raises a malformed-value error. -/
theorem map_flag_parsing (raw dh : String) :
    (∀ (a b c : String) (p q : Int), splitColonS raw = [a, b, c] →
        pyIntS a = some p → pyIntS c = some q →
        parse_map_flag raw dh =
          Except.ok ⟨dh, p, b, q, dh ++ ":" ++ toString p ++ "->" ++ b ++ ":" ++ toString q⟩) ∧
    (∀ (a b c d : String) (p q : Int), splitColonS raw = [a, b, c, d] →
        pyIntS b = some p → pyIntS d = some q →
        parse_map_flag raw dh =
          Except.ok ⟨a, p, c, q, a ++ ":" ++ toString p ++ "->" ++ c ++ ":" ++ toString q⟩) ∧
    ((splitColonS raw).length ≠ 3 → (splitColonS raw).length ≠ 4 →
        parseRejected (parse_map_flag raw dh) = true) ∧
    (∀ a b c : String, splitColonS raw = [a, b, c] →
        (pyIntS a = none ∨ pyIntS c = none) →
        parseRejected (parse_map_flag raw dh) = true) ∧
    (∀ a b c d : String, splitColonS raw = [a, b, c, d] →
        (pyIntS b = none ∨ pyIntS d = none) →
        parseRejected (parse_map_flag raw dh) = true) := by
  refine ⟨?_, ?_, ?_, ?_, ?_⟩
  · intro a b c p q hs hp hq
    rw [parse_map_flag, hs]
    exact mkSpec_ok raw dh a b c p q hp hq
  · intro a b c d p q hs hp hq
    rw [parse_map_flag, hs]
    exact mkSpec_ok raw a b c d p q hp hq
  · intro h3 h4
    rw [parse_map_flag]
    rcases hs : splitColonS raw with _ | ⟨a, _ | ⟨b, _ | ⟨c, _ | ⟨d, _ | ⟨e, t⟩⟩⟩⟩⟩ <;>
      simp_all [parseRejected]
  · intro a b c hs h
    rw [parse_map_flag, hs]
    exact mkSpec_rejected raw dh a b c h
  · intro a b c d hs h
    rw [parse_map_flag, hs]
    exact mkSpec_rejected raw a b c d h

/-- Concrete instances of `map_flag_parsing`: the three-field form with
default bind host `0.0.0.0`, and the rejected two-field form
`"abc:3000"`. -/
theorem map_flag_parsing_witness :
    parse_map_flag "9000:127.0.0.1:3000" "0.0.0.0" =
      Except.ok ⟨"0.0.0.0", 9000, "127.0.0.1", 3000, "0.0.0.0:9000->127.0.0.1:3000"⟩ ∧
    parseRejected (parse_map_flag "abc:3000" "0.0.0.0") = true := by
  constructor
  · exact (map_flag_parsing "9000:127.0.0.1:3000" "0.0.0.0").1
      "9000" "127.0.0.1" "3000" 9000 3000 (by decide) (by decide) (by decide)
  · exact (map_flag_parsing "abc:3000" "0.0.0.0").2.2.1 (by decide) (by decide)

/-- C6 counterexample: `parse_map_flag` performs no port-range check — a
remote port of 70000 and a local port of 0, both outside `[1, 65535]`,
are accepted and land verbatim in the constructed `TunnelSpec`. -/
theorem port_range_counterexample :
    parse_map_flag "70000:127.0.0.1:0" "0.0.0.0" =
      Except.ok ⟨"0.0.0.0", 70000, "127.0.0.1", 0, "0.0.0.0:70000->127.0.0.1:0"⟩ ∧
    ¬ ((1 : Int) ≤ 70000 ∧ (70000 : Int) ≤ 65535) ∧
    ¬ ((1 : Int) ≤ 0 ∧ (0 : Int) ≤ 65535) := by
  refine ⟨rfl, by decide, by decide⟩

/-- C6 (amended): `--map` parsing validates only the field count and that
the port fields are integers; any integer value — including ones outside
`[1, 65535]` — is accepted verbatim into the `TunnelSpec`, so no
range-based rejection happens before a spec is constructed. -/
theorem port_range_unchecked (raw dh a b c : String) (p q : Int)
    (hs : splitColonS raw = [a, b, c])
    (hp : pyIntS a = some p) (hq : pyIntS c = some q) :
    ∃ spec : TunnelSpec, parse_map_flag raw dh = Except.ok spec ∧
      spec.remote_bind_port = p ∧ spec.local_port = q := by
  refine ⟨⟨dh, p, b, q, dh ++ ":" ++ toString p ++ "->" ++ b ++ ":" ++ toString q⟩, ?_, rfl, rfl⟩
  rw [parse_map_flag, hs]
  exact mkSpec_ok raw dh a b c p q hp hq

/-- Concrete instance of `port_range_unchecked` with both ports outside
`[1, 65535]`. -/
theorem port_range_unchecked_witness :
    ∃ spec : TunnelSpec, parse_map_flag "70000:127.0.0.1:0" "0.0.0.0" = Except.ok spec ∧
      spec.remote_bind_port = 70000 ∧ spec.local_port = 0 :=
  port_range_unchecked "70000:127.0.0.1:0" "0.0.0.0" "70000" "127.0.0.1" "0" 70000 0
    (by decide) (by decide) (by decide)

/-- C7: reaching end-of-stream (or an error) in one copy direction only
half-closes the destination — `pipe`'s `finally` shuts down its write
side but never closes it — while the opposite direction still delivers
its data; and on every completion path of an established bridge, whatever
either direction delivered or where either failed, both the channel and
the local socket are closed before `forward_channel` returns. -/
theorem bridge_half_close_then_close (chanData sockData : List (List Nat))
    (chanFail sockFail : Option Nat) (channel sock : Endpoint) :
    (∀ (d : List (List Nat)) (f : Option Nat) (e : Endpoint),
        (pipe d f e).wrShutdown = true ∧
        (pipe d f e).closed = e.closed ∧
        (pipe d f e).received = e.received ++ delivered d f) ∧
    (forward_channel true chanData sockData chanFail sockFail channel sock).channel.closed = true ∧
    (forward_channel true chanData sockData chanFail sockFail channel sock).sock.closed = true ∧
    (forward_channel true chanData sockData chanFail sockFail channel sock).sock.received =
      sock.received ++ delivered chanData chanFail ∧
    (forward_channel true chanData sockData chanFail sockFail channel sock).channel.received =
      channel.received ++ delivered sockData sockFail := by
  refine ⟨fun d f e => ⟨rfl, rfl, rfl⟩, ?_, ?_, ?_, ?_⟩ <;>
    simp [forward_channel, pipe]

/-- C8: when the fresh TCP connection to the local target fails, the
bridge closes only the inbound channel and returns reporting a local
connect error — nothing is ever written to the local socket — and the
supervisor's accept loop treats a handled channel as a no-op on its own
state: it stays in `Serving` with backoff untouched and no sleep, so the
failure never terminates the tunnel's session or retry loop. -/
theorem local_connect_failure_isolated (cfg : TunnelConfig) (st : SupState)
    (hserv : st.phase = Phase.Serving) (chanData sockData : List (List Nat))
    (chanFail sockFail : Option Nat) (channel sock : Endpoint) (ok : Bool) :
    (forward_channel false chanData sockData chanFail sockFail channel sock).localConnectError = true ∧
    (forward_channel false chanData sockData chanFail sockFail channel sock).channel.closed = true ∧
    (forward_channel false chanData sockData chanFail sockFail channel sock).sock = sock ∧
    (run_tunnel_step cfg st (TunnelEvent.channelAccepted ok)).1 = st ∧
    (run_tunnel_step cfg st (TunnelEvent.channelAccepted ok)).1.phase = Phase.Serving ∧
    (run_tunnel_step cfg st (TunnelEvent.channelAccepted ok)).2 = 0 := by
  refine ⟨rfl, ?_, rfl, rfl, ?_, rfl⟩
  · simp [forward_channel]
  · rw [show (run_tunnel_step cfg st (TunnelEvent.channelAccepted ok)).1 = st from rfl, hserv]

/-- Concrete instance of `local_connect_failure_isolated`. -/
theorem local_connect_failure_isolated_witness :
    (forward_channel false [[7]] [] none none ⟨[], false, false⟩ ⟨[], false, false⟩).localConnectError = true ∧
    (forward_channel false [[7]] [] none none ⟨[], false, false⟩ ⟨[], false, false⟩).channel.closed = true ∧
    (forward_channel false [[7]] [] none none ⟨[], false, false⟩ ⟨[], false, false⟩).sock = ⟨[], false, false⟩ ∧
    (run_tunnel_step ⟨2, 60⟩ ⟨Phase.Serving, 2, some "pw\n"⟩ (TunnelEvent.channelAccepted false)).1 =
      ⟨Phase.Serving, 2, some "pw\n"⟩ ∧
    (run_tunnel_step ⟨2, 60⟩ ⟨Phase.Serving, 2, some "pw\n"⟩ (TunnelEvent.channelAccepted false)).1.phase =
      Phase.Serving ∧
    (run_tunnel_step ⟨2, 60⟩ ⟨Phase.Serving, 2, some "pw\n"⟩ (TunnelEvent.channelAccepted false)).2 = 0 :=
  local_connect_failure_isolated ⟨2, 60⟩ ⟨Phase.Serving, 2, some "pw\n"⟩ rfl
    [[7]] [] none none ⟨[], false, false⟩ ⟨[], false, false⟩ false
